import Mathlib

/-!
Verification of the Flat-File-Reader data-access core against its
natural-language specification.

The development shallowly embeds the TypeScript source:

* `src/fileLoader.ts` — format detection (`detectFileType`), column-name
  sanitization (`sanitizeColumnName`), the paged query pipeline of
  `loadWithDuckDB` (query construction, count query, column derivation,
  wide-integer normalization in `returnData`), the manually staged
  `INSERT` construction shared by `loadWithExcelJS` / `loadWithXML` /
  the Parquet branch of `saveFileData`, and `saveFileData` itself.
* `src/extension.ts` — the `withRetry` helper and the `finalizeSave`
  message-handler branch (single lock check + rename).

JavaScript runtime values are modelled by the inductive `JsValue`
(numbers as rationals; `NaN` and the details of number-to-string
formatting are not needed by any theorem and are modelled loosely).
The external DuckDB engine is modelled as follows: the statements the
code itself generates (`SELECT * FROM data [WHERE …] LIMIT … OFFSET …`)
are evaluated by `execBuilt` with the documented WHERE/OFFSET/LIMIT
semantics, while the responses to caller-supplied raw SQL, to the
count query and to the `LIMIT 0` re-issue are abstract fields of an
`Engine` record, since they are produced by the external engine and
not by repository code.
-/

/-- The character class of JavaScript's regular-expression `\s`
(whitespace as matched by `/\s+/g` and removed by `String.prototype.trim`). -/
def jsWs (c : Char) : Bool :=
  let n := c.toNat
  n == 9 || n == 10 || n == 11 || n == 12 || n == 13 || n == 32 ||
  n == 160 || n == 0x1680 || (0x2000 ≤ n && n ≤ 0x200A) ||
  n == 0x2028 || n == 0x2029 || n == 0x202F || n == 0x205F ||
  n == 0x3000 || n == 0xFEFF

/-- JavaScript `String.prototype.trim`: strip leading and trailing `\s`. -/
def jsTrim (s : String) : String :=
  ⟨((s.data.dropWhile jsWs).reverse.dropWhile jsWs).reverse⟩

/-- Worker for `replaceWsRuns`: `prevWs` records whether the previous
character belonged to a whitespace run (in which case the run's
replacement character has already been emitted). -/
def replaceWsRunsGo (repl : Char) (prevWs : Bool) : List Char → List Char
  | [] => []
  | c :: rest =>
    if jsWs c then
      if prevWs then replaceWsRunsGo repl true rest
      else repl :: replaceWsRunsGo repl true rest
    else c :: replaceWsRunsGo repl false rest

/-- Replace every maximal run of `\s` characters by the single character
`repl`.  This is `str.replace(/\s+/g, repl)` on the character list. -/
def replaceWsRuns (repl : Char) (l : List Char) : List Char :=
  replaceWsRunsGo repl false l

/-- `sanitizeColumnName` (src/fileLoader.ts line 34):
`name.replace(/\s+/g, '_')`. -/
def sanitizeColumnName (name : String) : String :=
  ⟨replaceWsRuns '_' name.data⟩

/-- `sql.replace(/\s+/g, ' ').trim()` — the normalization applied to a
caller-supplied raw SQL statement (src/fileLoader.ts line 78). -/
def collapseWs (s : String) : String :=
  jsTrim ⟨replaceWsRuns ' ' s.data⟩

/-- `needle.replace(/'/g, "''")`: double every single quote
(src/fileLoader.ts line 83). -/
def escQuotes (s : String) : String :=
  ⟨s.data.flatMap fun c => if c = '\'' then [c, c] else [c]⟩

/-- A JavaScript runtime value as it appears in a DuckDB result row or a
spreadsheet/XML cell.  Numbers are modelled as rationals (`NaN` and the
exact double formatting are not needed by any theorem). -/
inductive JsValue where
  | vNull : JsValue
  | vUndefined : JsValue
  | vBool (b : Bool) : JsValue
  | vNum (q : ℚ) : JsValue
  | vStr (s : String) : JsValue
  | vBigInt (i : Int) : JsValue
deriving DecidableEq, Repr

/-- JavaScript truthiness: the falsy values among those `JsValue` models
(`null`, `undefined`, `false`, `0`, `''`, `0n`). -/
def jsFalsy : JsValue → Bool
  | .vNull => true
  | .vUndefined => true
  | .vBool b => !b
  | .vNum q => q == 0
  | .vStr s => s == ""
  | .vBigInt i => i == 0

/-- `String(v)` for the values a staged cell can hold.  Number formatting
is modelled loosely (no theorem depends on it). -/
def jsToString : JsValue → String
  | .vNull => "null"
  | .vUndefined => "undefined"
  | .vBool true => "true"
  | .vBool false => "false"
  | .vNum q => toString q
  | .vStr s => s
  | .vBigInt i => toString i

/-- `typeof v === 'bigint'`. -/
def isBigInt : JsValue → Bool
  | .vBigInt _ => true
  | _ => false

/-- A result row as the DuckDB node driver delivers it: a JavaScript
object, i.e. an ordered association list from property names to values. -/
abbrev DbRow := List (String × JsValue)

/-- `row[col]`: property access, `undefined` when the key is absent. -/
def jsIndex (row : DbRow) (k : String) : JsValue :=
  match row.find? (fun p => p.1 == k) with
  | some p => p.2
  | none => .vUndefined

/-- The ephemeral in-memory table `data` produced by ingestion: its
declared schema (what `DESCRIBE data` reports as `column_name`) and its
rows. -/
structure DTable where
  schema : List String
  rows : List DbRow

/-- The statement `loadWithDuckDB` builds (src/fileLoader.ts lines
75-100), kept in structured form; `renderQuery` below produces the
exact statement text the code interpolates. -/
inductive BuiltQuery where
  | raw (text : String) : BuiltQuery
  | search (needle : String) (cols : List String) (limit offset : Nat) : BuiltQuery
  | plain (limit offset : Nat) : BuiltQuery
deriving DecidableEq, Repr

/-- The statement text of a `BuiltQuery`, exactly as the source
interpolates it (the search conditions are
`<col> LIKE '%<needle>%'` joined by ` OR `, src/fileLoader.ts line 91). -/
def renderQuery : BuiltQuery → String
  | .raw text => text
  | .search needle cols limit offset =>
      "SELECT * FROM data WHERE " ++
      String.intercalate " OR " (cols.map fun col => col ++ " LIKE '%" ++ needle ++ "%'") ++
      " LIMIT " ++ toString limit ++ " OFFSET " ++ toString offset
  | .plain limit offset =>
      "SELECT * FROM data LIMIT " ++ toString limit ++ " OFFSET " ++ toString offset

/-- The statement-selection logic of `loadWithDuckDB`
(src/fileLoader.ts lines 75-100): a raw statement that is non-empty
after trimming wins and is used with whitespace collapsed; otherwise a
non-empty search builds the LIKE filter over the sanitized `DESCRIBE`
columns; otherwise the plain paged select. -/
def buildQuery (schema : List String) (sql search : String) (limit offset : Nat) :
    BuiltQuery :=
  if jsTrim sql ≠ "" then .raw (collapseWs sql)
  else if jsTrim search ≠ "" then
    .search (escQuotes (jsTrim search)) (schema.map sanitizeColumnName) limit offset
  else .plain limit offset

/-- Substring test on character lists (used to model the engine's
`LIKE '%needle%'`). -/
def listContains (sub : List Char) : List Char → Bool
  | [] => sub.isEmpty
  | c :: rest => sub.isPrefixOf (c :: rest) || listContains sub rest

/-- Modelled from the spec: the external query engine's evaluation of one
`LIKE '%needle%'` condition against the value a row holds at a column. -/
def likeContains (v : JsValue) (needle : String) : Bool :=
  listContains needle.data (jsToString v).data

/-- The external engine's responses to the statements repository code
does not generate itself: caller-supplied raw SQL, the count query and
the ` LIMIT 0` re-issue.  These are abstract because they are produced
by DuckDB, not by repository code. -/
structure Engine where
  countExec : String → List DbRow
  limit0Exec : String → List DbRow
  rawExec : String → List DbRow

/-- Modelled from the spec: the external engine's execution of the built
statement.  The two statements the code generates are evaluated with
SQL's documented semantics (WHERE filter, then OFFSET, then LIMIT);
raw statements are answered by the abstract `Engine`. -/
def execBuilt (t : DTable) (eng : Engine) : BuiltQuery → List DbRow
  | .raw text => eng.rawExec text
  | .search needle cols limit offset =>
      (((t.rows.filter fun r => cols.any fun c => likeContains (jsIndex r c) needle).drop
        offset).take limit)
  | .plain limit offset => ((t.rows.drop offset).take limit)

/-- The count statement of `executeQuery` (src/fileLoader.ts line 107);
a constant, independent of the page request. -/
def countQuery : String := "SELECT COUNT(*) as total FROM data"

/-- `typeof total === 'bigint' ? Number(total) : total`
(src/fileLoader.ts line 113). -/
def toTotal : JsValue → JsValue
  | .vBigInt i => .vNum i
  | v => v

/-- `typeof value === 'bigint' ? value.toString() : value`
(src/fileLoader.ts line 155). -/
def convertValue : JsValue → JsValue
  | .vBigInt i => .vStr (toString i)
  | v => v

/-- The page of data `loadWithDuckDB` resolves with
(src/fileLoader.ts lines 8-14). -/
structure PageData where
  columns : List String
  rows : List (List JsValue)
  offset : Nat
  limit : Nat
  total : JsValue
deriving DecidableEq, Repr

/-- The `loadWithDuckDB` pipeline after ingestion (src/fileLoader.ts
lines 75-170): build the statement, read `total` from the count query's
response, execute the statement, derive the column list from the first
returned row's sanitized keys (falling back to a ` LIMIT 0` re-issue
when no row came back), and normalize each row through `convertValue`. -/
def loadPage (t : DTable) (eng : Engine) (offset limit : Nat) (search sql : String) :
    PageData :=
  let q := buildQuery t.schema sql search limit offset
  let total := toTotal (jsIndex ((eng.countExec countQuery).headD []) "total")
  let resRows := execBuilt t eng q
  let queryColumns :=
    match resRows with
    | r :: _ => (r.map Prod.fst).map sanitizeColumnName
    | [] =>
      match eng.limit0Exec (renderQuery q ++ " LIMIT 0") with
      | r :: _ => (r.map Prod.fst).map sanitizeColumnName
      | [] => []
  { columns := queryColumns
    rows := resRows.map fun r => queryColumns.map fun c => convertValue (jsIndex r c)
    offset := offset
    limit := limit
    total := total }

/-- The file kinds `detectFileType` distinguishes
(src/fileLoader.ts lines 23-32). -/
inductive FileType where
  | csv | tsv | parquet | excel | json | xml
deriving DecidableEq, Repr

/-- ASCII lower-casing of an extension string (`ext.toLowerCase()`;
extensions are ASCII). -/
def asciiLower (s : String) : String :=
  ⟨s.data.map Char.toLower⟩

/-- `detectFileType` (src/fileLoader.ts lines 23-32), taking the
extension `path.extname(filePath)` as its argument (`path.extname` is
the Node standard library).  Unrecognized extensions default to csv. -/
def detectFileType (ext : String) : FileType :=
  let e := asciiLower ext
  if e = ".csv" then .csv
  else if e = ".tsv" then .tsv
  else if e = ".parquet" ∨ e = ".pq" then .parquet
  else if e = ".xlsx" ∨ e = ".xls" then .excel
  else if e = ".json" then .json
  else if e = ".xml" then .xml
  else .csv

/-- The SQL string literal staged for one cell in the manual INSERT
paths: `'${String(val || '').replace(/'/g, "''")}'` — identical at
src/fileLoader.ts lines 210 (spreadsheet ingestion), 365 (XML
ingestion) and 513 (Parquet save). -/
def stagedLiteral (v : JsValue) : String :=
  "'" ++ escQuotes (jsToString (if jsFalsy v then .vStr "" else v)) ++ "'"

/-- The full `INSERT INTO data VALUES …` statement of the three manual
staging paths (src/fileLoader.ts lines 210, 365, 513). -/
def mkInsertQuery (rows : List (List JsValue)) : String :=
  "INSERT INTO data VALUES " ++
  String.intercalate ", "
    (rows.map fun row => "(" ++ String.intercalate ", " (row.map stagedLiteral) ++ ")")

/-- The `CREATE TABLE data (…)` statement of the manual staging paths
(src/fileLoader.ts lines 201, 356, 508): one quoted VARCHAR column per
name. -/
def mkCreateQuery (columns : List String) : String :=
  "CREATE TABLE data (" ++
  String.intercalate ", " (columns.map fun col => "\"" ++ col ++ "\" VARCHAR") ++ ")"

/-- A side effect `saveFileData` performs at the destination.  The CSV,
spreadsheet and JSON serializers are external libraries, so the effect
records the data handed to them; the Parquet branch records the
statements run against the staging engine. -/
inductive SaveEffect where
  | writeDelim (delim : Char) (columns : List String) (rows : List (List JsValue)) : SaveEffect
  | writeWorkbook (columns : List String) (rows : List (List JsValue)) : SaveEffect
  | runCreate (q : String) : SaveEffect
  | runInsert (q : String) : SaveEffect
  | runCopyParquet : SaveEffect
  | writeJson (columns : List String) (rows : List (List JsValue)) : SaveEffect
deriving DecidableEq, Repr

/-- `saveFileData` (src/fileLoader.ts lines 490-547), as the list of
effects performed at the destination, or the thrown error message.  The
`else` branch — reached exactly for the xml kind — throws before any
write, so the error case carries no effect. -/
def saveFileData (ext : String) (columns : List String) (rows : List (List JsValue)) :
    Except String (List SaveEffect) :=
  match detectFileType ext with
  | .csv => .ok [.writeDelim ',' columns rows]
  | .tsv => .ok [.writeDelim '\t' columns rows]
  | .excel => .ok [.writeWorkbook columns rows]
  | .parquet =>
    if rows.length > 0 then
      .ok [.runCreate (mkCreateQuery columns), .runInsert (mkInsertQuery rows),
           .runCopyParquet]
    else
      .ok [.runCreate (mkCreateQuery columns), .runCopyParquet]
  | .json => .ok [.writeJson columns rows]
  | .xml => .error "Unsupported file type for saving"

/-- The error codes `withRetry` and `isFileLocked` test
(src/extension.ts lines 308, 495). -/
inductive ErrCode where
  | EBUSY | EPERM | EACCES
  | generic (msg : String)
deriving DecidableEq, Repr

/-- `err.code === 'EBUSY' || err.code === 'EPERM' || err.code === 'EACCES'`. -/
def isLockCode : ErrCode → Bool
  | .EBUSY => true
  | .EPERM => true
  | .EACCES => true
  | .generic _ => false

/-- Outcome of `withRetry`: resolution or the thrown error, together
with the backoff delays slept (in order) before it. -/
inductive RetryOutcome where
  | ok (delays : List Nat) : RetryOutcome
  | thrown (e : ErrCode) (delays : List Nat) : RetryOutcome
deriving DecidableEq, Repr

/-- Prepend one backoff delay to an outcome's delay trace. -/
def RetryOutcome.withDelay (d : Nat) : RetryOutcome → RetryOutcome
  | .ok ds => .ok (d :: ds)
  | .thrown e ds => .thrown e (d :: ds)

/-- The loop body of `withRetry` (src/extension.ts lines 489-506),
starting at `attempt` with `remaining = maxAttempts - attempt + 1`
loop iterations left; `op n` is the outcome of the n-th call of the
operation.  `remaining = 0` is the loop exiting (`attempt > maxAttempts`,
the function resolves); `remaining = 1` means `attempt === maxAttempts`
so an error is rethrown.  A lock-code error before that sleeps
`delayMs * Math.pow(2, attempt - 1)` and retries; a non-lock error is
rethrown at once. -/
def withRetryGo (op : Nat → Except ErrCode Unit) (delayMs : Nat) :
    (attempt remaining : Nat) → RetryOutcome
  | _, 0 => .ok []
  | attempt, remaining + 1 =>
    match op attempt with
    | .ok _ => .ok []
    | .error e =>
      if remaining = 0 ∨ isLockCode e = false then .thrown e []
      else
        (withRetryGo op delayMs (attempt + 1) remaining).withDelay
          (delayMs * 2 ^ (attempt - 1))

/-- `withRetry(operation, maxAttempts, delayMs)`
(src/extension.ts lines 489-506). -/
def withRetry (op : Nat → Except ErrCode Unit) (maxAttempts delayMs : Nat) :
    RetryOutcome :=
  withRetryGo op delayMs 1 maxAttempts

/-- What the `finalizeSave` message branch does at the destination. -/
inductive FinalizeResult where
  | posted (msg : String) : FinalizeResult
  | renamed : FinalizeResult
deriving DecidableEq, Repr

/-- The `finalizeSave` branch of the message handler (src/extension.ts
lines 284-328).  `locked n` is what the n-th exclusive-reopen probe of
the destination would report; the code performs exactly one probe
(`locked 0`) and posts the lock message without renaming when it
reports contention. -/
def finalizeSave (hasTemp tempExists : Bool) (locked : Nat → Bool) : FinalizeResult :=
  if hasTemp = false then .posted "No pending save to finalize."
  else if tempExists = false then .posted "Temp file no longer exists."
  else if locked 0 then
    .posted "File is still locked. Please close it in the other program and try again."
  else .renamed

example : sanitizeColumnName "first  name" = "first_name" := by decide

example : jsTrim "  a b " = "a b" := by decide

example : collapseWs " SELECT   *  FROM data " = "SELECT * FROM data" := by decide

example : escQuotes "O'Neil" = "O''Neil" := by decide

example :
    loadPage ⟨["name", "age"],
        [[("name", .vStr "Alice"), ("age", .vBigInt 30)],
         [("name", .vStr "Bob"), ("age", .vBigInt 25)],
         [("name", .vStr "Carol"), ("age", .vBigInt 41)]]⟩
      { countExec := fun _ => [[("total", .vBigInt 3)]]
        limit0Exec := fun _ => []
        rawExec := fun _ => [] }
      0 2 "" "" =
    { columns := ["name", "age"]
      rows := [[.vStr "Alice", .vStr "30"], [.vStr "Bob", .vStr "25"]]
      offset := 0
      limit := 2
      total := .vNum 3 } := by decide

example :
    loadPage ⟨["name", "age"],
        [[("name", .vStr "Alice"), ("age", .vBigInt 30)],
         [("name", .vStr "Bob"), ("age", .vBigInt 25)],
         [("name", .vStr "Carol"), ("age", .vBigInt 41)]]⟩
      { countExec := fun _ => [[("total", .vBigInt 3)]]
        limit0Exec := fun _ => []
        rawExec := fun _ => [] }
      0 100 "Bob" "" =
    { columns := ["name", "age"]
      rows := [[.vStr "Bob", .vStr "25"]]
      offset := 0
      limit := 100
      total := .vNum 3 } := by decide

example :
    withRetry (fun attempt => if attempt ≤ 3 then .error .EBUSY else .ok ()) 10 500 =
      .ok [500, 1000, 2000] := by decide

example :
    withRetry (fun _ => .error .EBUSY) 10 500 =
      .thrown .EBUSY [500, 1000, 2000, 4000, 8000, 16000, 32000, 64000, 128000] := by
  decide

example :
    withRetry (fun _ => .error (.generic "boom")) 10 500 =
      .thrown (.generic "boom") [] := by decide

example : saveFileData ".xml" ["a"] [[.vStr "x"]] = .error "Unsupported file type for saving" := rfl

example :
    saveFileData ".parquet" ["a"] [[.vNum 0]] =
      .ok [.runCreate "CREATE TABLE data (\"a\" VARCHAR)",
           .runInsert "INSERT INTO data VALUES ('')", .runCopyParquet] := rfl

example :
    renderQuery (buildQuery ["name", "age"] "" "O'Neil" 10 20) =
      "SELECT * FROM data WHERE name LIKE '%O''Neil%' OR age LIKE '%O''Neil%' LIMIT 10 OFFSET 20" := by
  decide

theorem replaceWsRunsGo_all_not_ws (repl : Char) (h : jsWs repl = false) :
    ∀ (prevWs : Bool) (l : List Char),
      ((replaceWsRunsGo repl prevWs l).all fun c => !jsWs c) = true := by
  intro prevWs l
  induction l generalizing prevWs with
  | nil => rfl
  | cons c rest ih =>
    by_cases hc : jsWs c = true
    · cases prevWs with
      | true => simpa [replaceWsRunsGo, hc] using ih true
      | false => simp [replaceWsRunsGo, hc, h, ih true]
    · simp only [Bool.not_eq_true] at hc
      simp [replaceWsRunsGo, hc, ih false]

theorem replaceWsRunsGo_id (repl : Char) (prevWs : Bool) (l : List Char)
    (h : (l.all fun c => !jsWs c) = true) : replaceWsRunsGo repl prevWs l = l := by
  induction l generalizing prevWs with
  | nil => rfl
  | cons c rest ih =>
    simp only [List.all_cons, Bool.and_eq_true, Bool.not_eq_true'] at h
    simp [replaceWsRunsGo, h.1, ih _ h.2]

theorem length_dropWhile_le (p : α → Bool) (l : List α) :
    (l.dropWhile p).length ≤ l.length := by
  induction l with
  | nil => simp
  | cons a t ih =>
    rw [List.dropWhile_cons]
    split
    · simp only [List.length_cons]; omega
    · simp

theorem replaceWsRunsGo_skip_ws (repl : Char) (run rest : List Char)
    (h : run.all jsWs = true) :
    replaceWsRunsGo repl true (run ++ rest) = replaceWsRunsGo repl true rest := by
  induction run with
  | nil => rfl
  | cons c run' ih =>
    simp only [List.all_cons, Bool.and_eq_true] at h
    simp [replaceWsRunsGo, h.1, ih h.2]

theorem replaceWsRunsGo_true_eq_false (repl : Char) (rest : List Char)
    (h : rest.dropWhile jsWs = rest) :
    replaceWsRunsGo repl true rest = replaceWsRunsGo repl false rest := by
  cases rest with
  | nil => rfl
  | cons d t =>
    have hd : jsWs d = false := by
      by_contra hne
      simp only [Bool.not_eq_false] at hne
      rw [List.dropWhile_cons, if_pos hne] at h
      have := length_dropWhile_le jsWs t
      have hlen := congrArg List.length h
      simp only [List.length_cons] at hlen
      omega
    simp [replaceWsRunsGo, hd]

theorem sanitize_no_ws (s : String)
    (h : (s.data.all fun c => !jsWs c) = true) : sanitizeColumnName s = s := by
  unfold sanitizeColumnName replaceWsRuns
  exact congrArg String.mk (replaceWsRunsGo_id '_' false s.data h)

/-- C9: Column-name sanitization replaces every maximal run of
whitespace with a single underscore (a non-whitespace character is
copied; a maximal whitespace run becomes one underscore) and is
idempotent: `sanitize (sanitize s) = sanitize s` for every string. -/
theorem sanitize_ws_runs_idempotent :
    (∀ s : String, sanitizeColumnName (sanitizeColumnName s) = sanitizeColumnName s) ∧
    (∀ (c : Char) (rest : List Char), jsWs c = false →
      replaceWsRuns '_' (c :: rest) = c :: replaceWsRuns '_' rest) ∧
    (∀ (run rest : List Char), run ≠ [] → run.all jsWs = true →
      rest.dropWhile jsWs = rest →
      replaceWsRuns '_' (run ++ rest) = '_' :: replaceWsRuns '_' rest) := by
  refine ⟨?_, ?_, ?_⟩
  · intro s
    exact sanitize_no_ws _ (replaceWsRunsGo_all_not_ws '_' (by decide) false s.data)
  · intro c rest h
    simp [replaceWsRuns, replaceWsRunsGo, h]
  · intro run rest hne hws hmax
    cases run with
    | nil => exact absurd rfl hne
    | cons c run' =>
      simp only [List.all_cons, Bool.and_eq_true] at hws
      simp [List.cons_append, replaceWsRuns, replaceWsRunsGo, hws.1]
      rw [replaceWsRunsGo_skip_ws '_' run' rest hws.2,
        replaceWsRunsGo_true_eq_false '_' rest hmax]

/-- Witness for C9 at concrete inputs: `"a \t b"` sanitizes
idempotently, a non-whitespace head is copied, and the run
`[' ', '\t']` before `['y']` collapses to one underscore. -/
theorem sanitize_ws_runs_idempotent_witness :
    sanitizeColumnName (sanitizeColumnName "a \t b") = sanitizeColumnName "a \t b" ∧
    replaceWsRuns '_' ('x' :: [' ', 'y']) = 'x' :: replaceWsRuns '_' [' ', 'y'] ∧
    replaceWsRuns '_' ([' ', '\t'] ++ ['y']) = '_' :: replaceWsRuns '_' ['y'] :=
  ⟨sanitize_ws_runs_idempotent.1 "a \t b",
   sanitize_ws_runs_idempotent.2.1 'x' [' ', 'y'] (by decide),
   sanitize_ws_runs_idempotent.2.2 [' ', '\t'] ['y'] (by decide) (by decide) (by decide)⟩

/-- C10: in the manually staged INSERT paths (spreadsheet ingestion,
structured-markup ingestion, columnar save — all three build
`mkInsertQuery` from `stagedLiteral`), every falsy cell value is
serialized as the empty-string SQL literal `''`; in particular the
number 0 becomes indistinguishable from the empty string, and the
Parquet save path stages a 0 cell as `('')`. -/
theorem falsy_staged_as_empty_string :
    (∀ v : JsValue, jsFalsy v = true → stagedLiteral v = "''") ∧
    stagedLiteral (.vNum 0) = stagedLiteral (.vStr "") ∧
    mkInsertQuery [[.vNum 0], [.vBool false], [.vNull], [.vUndefined], [.vStr ""]] =
      "INSERT INTO data VALUES (''), (''), (''), (''), ('')" ∧
    saveFileData ".parquet" ["a"] [[.vNum 0]] =
      .ok [.runCreate (mkCreateQuery ["a"]),
           .runInsert "INSERT INTO data VALUES ('')", .runCopyParquet] := by
  refine ⟨?_, by decide, by decide, rfl⟩
  intro v h
  simp [stagedLiteral, h]
  rfl

/-- Witness for C10: the boolean `false` (a falsy value) is staged as
the empty-string literal. -/
theorem falsy_staged_as_empty_string_witness :
    stagedLiteral (.vBool false) = "''" :=
  falsy_staged_as_empty_string.1 (.vBool false) (by decide)

/-- C7: for every saveAs destination whose extension implies the
structured-markup kind, the save fails with the unsupported-operation
error and performs no write effect at the destination. -/
theorem save_markup_unsupported (ext : String) (cols : List String)
    (rows : List (List JsValue)) (h : detectFileType ext = FileType.xml) :
    saveFileData ext cols rows = .error "Unsupported file type for saving" ∧
    ∀ effects, saveFileData ext cols rows ≠ .ok effects := by
  constructor
  · simp [saveFileData, h]
  · intro effects
    simp [saveFileData, h]

/-- Witness for C7 at the concrete destination extension `.XML`
(case-insensitive detection). -/
theorem save_markup_unsupported_witness :
    saveFileData ".XML" ["a"] [[JsValue.vStr "x"]] =
      .error "Unsupported file type for saving" :=
  (save_markup_unsupported ".XML" ["a"] [[JsValue.vStr "x"]] (by decide)).1

/-- C1: `total` is read from the constant count statement, which is
issued against the base table `data` and mentions neither the search
nor the raw SQL — so for a fixed ingested table `total` is identical
whatever `search`/`sql` the request carries; and when the engine
answers the count statement with COUNT(*) of the ingested table (a
BIGINT), `total` is exactly the base table's row count (converted to a
number), never the filtered row count. -/
theorem loadPage_total_invariant (t : DTable) (eng : Engine) (o l : Nat)
    (s₁ q₁ s₂ q₂ : String) :
    (loadPage t eng o l s₁ q₁).total = (loadPage t eng o l s₂ q₂).total ∧
    (eng.countExec countQuery = [[("total", JsValue.vBigInt t.rows.length)]] →
      (loadPage t eng o l s₁ q₁).total = JsValue.vNum (t.rows.length : ℚ)) := by
  constructor
  · rfl
  · intro h
    simp only [loadPage, h, List.headD, jsIndex, List.find?, toTotal]
    norm_num

/-- Witness for C1: a one-row table with a faithful count response,
queried once with a search and once with raw SQL. -/
theorem loadPage_total_invariant_witness :
    (loadPage ⟨["a"], [[("a", JsValue.vStr "x")]]⟩
        { countExec := fun _ => [[("total", JsValue.vBigInt 1)]]
          limit0Exec := fun _ => []
          rawExec := fun _ => [] } 0 5 "zz" "").total =
      (loadPage ⟨["a"], [[("a", JsValue.vStr "x")]]⟩
        { countExec := fun _ => [[("total", JsValue.vBigInt 1)]]
          limit0Exec := fun _ => []
          rawExec := fun _ => [] } 0 5 "" "SELECT 1 as one").total ∧
    (loadPage ⟨["a"], [[("a", JsValue.vStr "x")]]⟩
        { countExec := fun _ => [[("total", JsValue.vBigInt 1)]]
          limit0Exec := fun _ => []
          rawExec := fun _ => [] } 0 5 "zz" "").total = JsValue.vNum 1 := by
  refine ⟨(loadPage_total_invariant _ _ 0 5 "zz" "" "" "SELECT 1 as one").1, ?_⟩
  have h := (loadPage_total_invariant ⟨["a"], [[("a", JsValue.vStr "x")]]⟩
    { countExec := fun _ => [[("total", JsValue.vBigInt 1)]]
      limit0Exec := fun _ => []
      rawExec := fun _ => [] } 0 5 "zz" "" "" "").2 (by norm_num)
  simpa using h

/-- C2: a raw statement that is non-empty after trimming is always the
one executed — verbatim up to whitespace collapsing — and any search
is ignored; with the raw statement empty, a non-empty search yields
the generated LIKE-filter statement over the sanitized probe columns;
with both empty, the plain paged SELECT is executed. -/
theorem rawSql_overrides_search (schema : List String) (sql search : String)
    (l o : Nat) :
    (jsTrim sql ≠ "" →
      buildQuery schema sql search l o = .raw (collapseWs sql) ∧
      renderQuery (buildQuery schema sql search l o) = collapseWs sql ∧
      ∀ search₂, buildQuery schema sql search₂ l o = buildQuery schema sql search l o) ∧
    (jsTrim sql = "" → jsTrim search ≠ "" →
      buildQuery schema sql search l o =
        .search (escQuotes (jsTrim search)) (schema.map sanitizeColumnName) l o) ∧
    (jsTrim sql = "" → jsTrim search = "" →
      renderQuery (buildQuery schema sql search l o) =
        "SELECT * FROM data LIMIT " ++ toString l ++ " OFFSET " ++ toString o) := by
  refine ⟨?_, ?_, ?_⟩
  · intro h
    refine ⟨by simp [buildQuery, h], by simp [buildQuery, h, renderQuery], ?_⟩
    intro search₂
    simp [buildQuery, h]
  · intro h hs
    simp [buildQuery, h, hs]
  · intro h hs
    simp [buildQuery, h, hs, renderQuery]

/-- Witness for C2: concrete requests exercising all three branches. -/
theorem rawSql_overrides_search_witness :
    buildQuery ["name"] " SELECT  1 " "Bob" 10 0 = .raw "SELECT 1" ∧
    buildQuery ["name"] "" "Bob" 10 0 = .search "Bob" ["name"] 10 0 ∧
    renderQuery (buildQuery ["name"] "" "" 10 0) =
      "SELECT * FROM data LIMIT " ++ toString 10 ++ " OFFSET " ++ toString 0 := by
  refine ⟨?_, ?_, ?_⟩
  · have h := ((rawSql_overrides_search ["name"] " SELECT  1 " "Bob" 10 0).1
      (by decide)).1
    simpa using h
  · have h := (rawSql_overrides_search ["name"] "" "Bob" 10 0).2.1
      (by decide) (by decide)
    simpa using h
  · exact (rawSql_overrides_search ["name"] "" "" 10 0).2.2 (by decide) (by decide)

/-- C3: the result's column list is the sanitized key list of the first
returned row; when the statement returns no row, the code re-issues the
same statement text with ` LIMIT 0` appended and takes the sanitized
keys of that response's first row; when that too returns nothing, the
column list is empty. -/
theorem columns_from_first_returned_row (t : DTable) (eng : Engine) (o l : Nat)
    (search sql : String) :
    (∀ r rs, execBuilt t eng (buildQuery t.schema sql search l o) = r :: rs →
      (loadPage t eng o l search sql).columns = (r.map Prod.fst).map sanitizeColumnName) ∧
    (execBuilt t eng (buildQuery t.schema sql search l o) = [] →
      (∀ r rs,
        eng.limit0Exec
            (renderQuery (buildQuery t.schema sql search l o) ++ " LIMIT 0") = r :: rs →
        (loadPage t eng o l search sql).columns = (r.map Prod.fst).map sanitizeColumnName) ∧
      (eng.limit0Exec
          (renderQuery (buildQuery t.schema sql search l o) ++ " LIMIT 0") = [] →
        (loadPage t eng o l search sql).columns = [] ∧
        (loadPage t eng o l search sql).rows = [])) := by
  refine ⟨?_, ?_⟩
  · intro r rs h
    simp [loadPage, h]
  · intro h
    refine ⟨?_, ?_⟩
    · intro r rs h0
      simp [loadPage, h, h0]
    · intro h0
      simp [loadPage, h, h0]

/-- Witness for C3: a non-empty result derives columns from the first
row's sanitized keys, and an empty result with an empty LIMIT-0
response yields an empty column list. -/
theorem columns_from_first_returned_row_witness :
    (loadPage ⟨["col a"], [[("col a", JsValue.vStr "x")]]⟩
        { countExec := fun _ => [[("total", JsValue.vBigInt 1)]]
          limit0Exec := fun _ => []
          rawExec := fun _ => [] } 0 5 "" "").columns =
      ([("col a", JsValue.vStr "x")].map Prod.fst).map sanitizeColumnName ∧
    (loadPage ⟨["col a"], []⟩
        { countExec := fun _ => [[("total", JsValue.vBigInt 0)]]
          limit0Exec := fun _ => []
          rawExec := fun _ => [] } 0 5 "" "").columns = [] := by
  constructor
  · exact (columns_from_first_returned_row _ _ 0 5 "" "").1
      [("col a", JsValue.vStr "x")] [] (by decide)
  · exact (((columns_from_first_returned_row _ _ 0 5 "" "").2 (by decide)).2
      (by decide)).1

theorem count_quote_flatMap (l : List Char) :
    ((l.flatMap fun c => if c = '\'' then [c, c] else [c]).count '\'') =
      2 * l.count '\'' := by
  induction l with
  | nil => rfl
  | cons c rest ih =>
    rw [List.flatMap_cons, List.count_append, ih]
    by_cases hc : c = '\''
    · subst hc
      simp [List.count_cons]
      omega
    · simp [hc, List.count_cons]

theorem sanitize_map_id (schema : List String)
    (h : (schema.all fun c => c.data.all fun ch => !jsWs ch) = true) :
    schema.map sanitizeColumnName = schema := by
  induction schema with
  | nil => rfl
  | cons c rest ih =>
    simp only [List.all_cons, Bool.and_eq_true] at h
    simp [sanitize_no_ws c h.1, ih h.2]

/-- C4 counterexample: the claim that the generated SQL never references
a nonexistent column fails.  With the describe probe reporting the one
column `first name`, the generated WHERE clause references the
sanitized identifier `first_name`, which is not a column of the
ingested table. -/
theorem search_identifier_missing_cex :
    buildQuery ["first name"] "" "Bob" 10 0 =
      .search "Bob" ["first_name"] 10 0 ∧
    renderQuery (buildQuery ["first name"] "" "Bob" 10 0) =
      "SELECT * FROM data WHERE first_name LIKE '%Bob%' LIMIT 10 OFFSET 0" ∧
    "first_name" ∉ ["first name"] := by
  refine ⟨by decide, by decide, by decide⟩

/-- C4 (amended): the WHERE-clause identifiers are the sanitized
(whitespace runs to underscore) column names reported by the describe
probe of the just-ingested table — never caller input; whenever no
probed name contains whitespace the identifiers are exactly the
table's schema (so each exists); and every single quote in the needle
is doubled (the quote count doubles). -/
theorem search_identifiers_from_schema_probe (schema : List String)
    (search sql : String) (l o : Nat) :
    (jsTrim sql = "" → jsTrim search ≠ "" →
      buildQuery schema sql search l o =
        .search (escQuotes (jsTrim search)) (schema.map sanitizeColumnName) l o) ∧
    ((schema.all fun c => c.data.all fun ch => !jsWs ch) = true →
      schema.map sanitizeColumnName = schema) ∧
    (∀ s : String, ((escQuotes s).data.count '\'') = 2 * s.data.count '\'') := by
  refine ⟨?_, sanitize_map_id schema, ?_⟩
  · intro h hs
    simp [buildQuery, h, hs]
  · intro s
    exact count_quote_flatMap s.data

/-- Witness for C4 (amended): a whitespace-free schema passes through
sanitization unchanged and the needle `O'Neil`'s quote is doubled. -/
theorem search_identifiers_from_schema_probe_witness :
    buildQuery ["name", "age"] "" "O'Neil" 10 0 =
      .search (escQuotes (jsTrim "O'Neil")) (["name", "age"].map sanitizeColumnName) 10 0 ∧
    ["name", "age"].map sanitizeColumnName = ["name", "age"] ∧
    ((escQuotes "O'Neil").data.count '\'') = 2 * "O'Neil".data.count '\'' := by
  refine ⟨?_, ?_, ?_⟩
  · exact (search_identifiers_from_schema_probe ["name", "age"] "O'Neil" "" 10 0).1
      (by decide) (by decide)
  · exact (search_identifiers_from_schema_probe ["name", "age"] "O'Neil" "" 10 0).2.1
      (by decide)
  · exact (search_identifiers_from_schema_probe ["name", "age"] "O'Neil" "" 10 0).2.2
      "O'Neil"

/-- C5 counterexample: the bound `rows.length ≤ limit` fails for a
request carrying raw SQL — the raw statement is executed verbatim and
carries no LIMIT, so the engine returns every row of the two-row table
although `limit = 1`. -/
theorem rawSql_rows_exceed_limit_cex :
    ¬ ((loadPage ⟨["a"], [[("a", JsValue.vStr "x")], [("a", JsValue.vStr "y")]]⟩
        { countExec := fun _ => [[("total", JsValue.vBigInt 2)]]
          limit0Exec := fun _ => []
          rawExec := fun _ => [[("a", JsValue.vStr "x")], [("a", JsValue.vStr "y")]] }
        0 1 "" "SELECT * FROM data").rows.length ≤ 1) := by decide

/-- C5 (amended): for every request whose raw SQL is empty after
trimming, the generated statement's LIMIT bounds the result, so
`rows.length ≤ limit`; and for every request whatsoever, every
returned row's value-sequence length equals `columns.length`.  (With a
non-empty raw SQL the first bound can fail, see the counterexample.) -/
theorem rows_bounded_without_rawSql (t : DTable) (eng : Engine) (o l : Nat)
    (search sql : String) :
    (jsTrim sql = "" → (loadPage t eng o l search sql).rows.length ≤ l) ∧
    (∀ row ∈ (loadPage t eng o l search sql).rows,
      row.length = (loadPage t eng o l search sql).columns.length) := by
  constructor
  · intro h
    simp only [loadPage, List.length_map, buildQuery, h]
    by_cases hs : jsTrim search ≠ ""
    · simp [hs, execBuilt, List.length_take]
    · simp [hs, execBuilt, List.length_take]
  · intro row hrow
    simp only [loadPage, List.mem_map] at hrow
    obtain ⟨r, _, rfl⟩ := hrow
    simp [loadPage]

/-- Witness for C5 (amended): a three-row table paged with limit 2
returns 2 rows, and its first returned row is as long as the column
list. -/
theorem rows_bounded_without_rawSql_witness :
    (loadPage ⟨["a"], [[("a", JsValue.vStr "x")], [("a", JsValue.vStr "y")],
        [("a", JsValue.vStr "z")]]⟩
      { countExec := fun _ => [[("total", JsValue.vBigInt 3)]]
        limit0Exec := fun _ => []
        rawExec := fun _ => [] } 0 2 "" "").rows.length ≤ 2 ∧
    [JsValue.vStr "x"].length =
      (loadPage ⟨["a"], [[("a", JsValue.vStr "x")], [("a", JsValue.vStr "y")],
        [("a", JsValue.vStr "z")]]⟩
      { countExec := fun _ => [[("total", JsValue.vBigInt 3)]]
        limit0Exec := fun _ => []
        rawExec := fun _ => [] } 0 2 "" "").columns.length :=
  ⟨(rows_bounded_without_rawSql _ _ 0 2 "" "").1 (by decide),
   (rows_bounded_without_rawSql _ _ 0 2 "" "").2 [JsValue.vStr "x"] (by decide)⟩

theorem isBigInt_convertValue (v : JsValue) : isBigInt (convertValue v) = false := by
  cases v <;> rfl

/-- C6: `convertValue` turns every wide (bigint) scalar into its decimal
string representation and leaves every other value unchanged, and no
bigint survives into the returned rows of a page result. -/
theorem wide_ints_stringified (t : DTable) (eng : Engine) (o l : Nat)
    (search sql : String) :
    (∀ i : Int, convertValue (.vBigInt i) = .vStr (toString i)) ∧
    (∀ v : JsValue, isBigInt v = false → convertValue v = v) ∧
    (∀ row ∈ (loadPage t eng o l search sql).rows, ∀ cell ∈ row,
      isBigInt cell = false) := by
  refine ⟨fun i => rfl, ?_, ?_⟩
  · intro v h
    cases v <;> simp_all [convertValue, isBigInt]
  · intro row hrow cell hcell
    simp only [loadPage, List.mem_map] at hrow
    obtain ⟨r, _, rfl⟩ := hrow
    simp only [List.mem_map] at hcell
    obtain ⟨c, _, rfl⟩ := hcell
    exact isBigInt_convertValue _

/-- C8 counterexample: save finalization does not retry.  Under a
transient lock — held at the first probe, free from the second on —
`finalizeSave` immediately surfaces the lock message, while the retry
policy the claim describes (the `withRetry` helper at its defaults of
10 attempts and 500ms base delay) succeeds on the second attempt after
one backoff sleep. -/
theorem finalize_no_retry_cex :
    finalizeSave true true (fun n => n == 0) =
      .posted "File is still locked. Please close it in the other program and try again." ∧
    finalizeSave true true (fun n => n == 0) ≠ .renamed ∧
    withRetry (fun attempt => if (attempt - 1) == 0 then .error .EBUSY else .ok ())
        10 500 = .ok [500] := by
  refine ⟨by decide, by decide, by decide⟩

/-- C8 (amended): the `withRetry` helper — defined but never invoked by
the finalization path — implements the claimed policy exactly: a
non-lock error on the first attempt propagates immediately with no
backoff sleep; with every attempt failing on lock contention the budget
of 10 attempts is exhausted under doubling delays and the lock error is
surfaced.  The `finalizeSave` handler itself performs a single lock
probe: when the destination is locked it posts the lock message and
does not rename, leaving the destination untouched. -/
theorem retry_policy_and_single_lock_check (op : Nat → Except ErrCode Unit)
    (d : Nat) (e : ErrCode) (locked : Nat → Bool) :
    (op 1 = .error e → isLockCode e = false → withRetry op 10 d = .thrown e []) ∧
    ((∀ a, 1 ≤ a → a ≤ 10 → op a = .error .EBUSY) →
      withRetry op 10 d =
        .thrown .EBUSY
          [d * 1, d * 2, d * 4, d * 8, d * 16, d * 32, d * 64, d * 128, d * 256]) ∧
    (locked 0 = true →
      finalizeSave true true locked =
        .posted "File is still locked. Please close it in the other program and try again." ∧
      finalizeSave true true locked ≠ .renamed) := by
  refine ⟨?_, ?_, ?_⟩
  · intro h hl
    simp [withRetry, withRetryGo, h, hl]
  · intro h
    have h1 := h 1 (by omega) (by omega)
    have h2 := h 2 (by omega) (by omega)
    have h3 := h 3 (by omega) (by omega)
    have h4 := h 4 (by omega) (by omega)
    have h5 := h 5 (by omega) (by omega)
    have h6 := h 6 (by omega) (by omega)
    have h7 := h 7 (by omega) (by omega)
    have h8 := h 8 (by omega) (by omega)
    have h9 := h 9 (by omega) (by omega)
    have h10 := h 10 (by omega) (by omega)
    norm_num [withRetry, withRetryGo, h1, h2, h3, h4, h5, h6, h7, h8, h9, h10,
      isLockCode, RetryOutcome.withDelay]
  · intro h
    constructor
    · simp [finalizeSave, h]
    · simp [finalizeSave, h]

/-- Witness for C8 (amended) at concrete inputs: a generic error thrown
on the first attempt propagates with no sleeps, constant lock
contention exhausts the 10-attempt budget under doubling delays, and a
constantly locked destination makes finalization post the lock message. -/
theorem retry_policy_and_single_lock_check_witness :
    withRetry (fun _ => .error (.generic "boom")) 10 500 =
      .thrown (.generic "boom") [] ∧
    withRetry (fun _ => .error .EBUSY) 10 500 =
      .thrown .EBUSY
        [500 * 1, 500 * 2, 500 * 4, 500 * 8, 500 * 16, 500 * 32, 500 * 64,
         500 * 128, 500 * 256] ∧
    finalizeSave true true (fun _ => true) =
      .posted "File is still locked. Please close it in the other program and try again." :=
  ⟨(retry_policy_and_single_lock_check (fun _ => .error (.generic "boom")) 500
      (.generic "boom") (fun _ => true)).1 rfl rfl,
   (retry_policy_and_single_lock_check (fun _ => .error .EBUSY) 500
      (.generic "boom") (fun _ => true)).2.1 (fun _ _ _ => rfl),
   ((retry_policy_and_single_lock_check (fun _ => .error .EBUSY) 500
      (.generic "boom") (fun _ => true)).2.2 rfl).1⟩

/-- Witness for C6: loading a one-row table holding the BIGINT 30
yields a row whose cell is no longer a bigint (it was stringified),
and a non-bigint value passes through `convertValue` unchanged. -/
theorem wide_ints_stringified_witness :
    isBigInt (JsValue.vStr "30") = false ∧
    convertValue (JsValue.vStr "x") = JsValue.vStr "x" :=
  ⟨(wide_ints_stringified ⟨["age"], [[("age", JsValue.vBigInt 30)]]⟩
      { countExec := fun _ => [[("total", JsValue.vBigInt 1)]]
        limit0Exec := fun _ => []
        rawExec := fun _ => [] } 0 5 "" "").2.2
      [JsValue.vStr "30"] (by decide) (JsValue.vStr "30") (by decide),
   (wide_ints_stringified ⟨["age"], [[("age", JsValue.vBigInt 30)]]⟩
      { countExec := fun _ => [[("total", JsValue.vBigInt 1)]]
        limit0Exec := fun _ => []
        rawExec := fun _ => [] } 0 5 "" "").2.1 (JsValue.vStr "x") (by decide)⟩
